import Mathlib

/-!
Verification of the risk-blending and aggregation pipeline of the
airline-tracker application (src/app.py), shallowly embedded in Lean 4.

Conventions of the embedding:
* Python floats are modelled as rationals; the constants 0.35, 0.20, ... become
  the exact rationals 35/100, 20/100, ...
* Python `None` and pandas `NaN` cells are modelled with `Option`.
* Case-insensitive substring matching (`"gs" in reason.lower()`) is modelled by
  `containsSub` over lowercased strings.
* `dict | None` parameters become `Option` of a structure holding the fields the
  code reads.
-/

namespace AirlineTracker

/-- Boolean test that the first character list starts with the second. -/
def startsWithList : List Char → List Char → Bool
  | _, [] => true
  | [], _ :: _ => false
  | a :: as, b :: bs => a == b && startsWithList as bs

/-- Boolean test that the second character list occurs contiguously inside the
first. -/
def containsList : List Char → List Char → Bool
  | [], needle => needle.isEmpty
  | c :: rest, needle => startsWithList (c :: rest) needle || containsList rest needle

/-- Boolean substring test: `containsSub hay needle` holds when `needle` occurs
contiguously inside `hay`; this models the Python expression `needle in hay`. -/
def containsSub (hay needle : String) : Bool :=
  containsList hay.toList needle.toList

/-- ASCII lowercasing of one character, as Python str.lower acts on the ASCII
strings this pipeline compares. -/
def lowerChar (c : Char) : Char :=
  if 65 <= c.toNat ∧ c.toNat <= 90 then Char.ofNat (c.toNat + 32) else c

/-- ASCII lowercasing of a string, modelling the Python .lower() calls. -/
def lowerStr (s : String) : String := String.mk (s.data.map lowerChar)

/-- Clamping of a score into the unit interval, modelling the final
`max(0.0, min(1.0, score))` of both risk functions. -/
def clamp01 (x : ℚ) : ℚ := max 0 (min 1 x)

/-- The part of an FAA airport-status record that `risk_score_delay` and
`risk_score_cancel` read: the stringified `Delay` field and the stringified
`Status.Reason` field (absent dict entries arrive as `""` via
`str(faa_status.get("Delay", ""))` and the `or {}` default). -/
structure FAAStatus where
  delay : String
  reason : String
  deriving Repr, DecidableEq

/-- The airport-status block of `risk_score_delay` (src/app.py lines 165-173):
one tier bump chosen by first match over the lowercased Delay text and
Status.Reason text, clamped to 1; an absent status leaves the score alone. -/
def delayStatusStep (score : ℚ) : Option FAAStatus → ℚ
  | none => score
  | some st =>
    if containsSub (lowerStr st.delay) "ground stop" || containsSub (lowerStr st.reason) "gs" then
      min 1 (score + 35/100)
    else if containsSub (lowerStr st.delay) "ground delay"
        || containsSub (lowerStr st.reason) "edct" then
      min 1 (score + 20/100)
    else if containsSub (lowerStr st.reason) "arrival"
        || containsSub (lowerStr st.reason) "depart" then
      min 1 (score + 10/100)
    else score

/-- The live-phase block of `risk_score_delay` (src/app.py lines 174-175): a
0.05 bump, clamped to 1, when the phase string is truthy (non-empty) and
contains one of the four keywords. -/
def delayPhaseStep (score : ℚ) : Option String → ℚ
  | none => score
  | some p =>
    if p = "" then score
    else if containsSub (lowerStr p) "scheduled" || containsSub (lowerStr p) "delayed"
        || containsSub (lowerStr p) "on gate" || containsSub (lowerStr p) "boarding" then
      min 1 (score + 5/100)
    else score

/-- Embedding of `risk_score_delay` from src/app.py lines 162-176: the baseline
(None treated as 0 upstream), the airport-status tier step, the live-phase
step, and the final clamp `max(0.0, min(1.0, score))`. -/
def risk_score_delay (baseline_prob : ℚ) (faa_status : Option FAAStatus)
    (live_phase : Option String) : ℚ :=
  max 0 (min 1 (delayPhaseStep (delayStatusStep baseline_prob faa_status) live_phase))

/-- The airport-status block of `risk_score_cancel` (src/app.py lines 181-187):
as in the delay scorer but with increments 0.25 / 0.10 and no third tier. -/
def cancelStatusStep (score : ℚ) : Option FAAStatus → ℚ
  | none => score
  | some st =>
    if containsSub (lowerStr st.delay) "ground stop" || containsSub (lowerStr st.reason) "gs" then
      min 1 (score + 25/100)
    else if containsSub (lowerStr st.delay) "ground delay"
        || containsSub (lowerStr st.reason) "edct" then
      min 1 (score + 10/100)
    else score

/-- The live-phase block of `risk_score_cancel` (src/app.py lines 188-189): a
truthy phase string containing cancel overwrites the score with 1.0. -/
def cancelPhaseStep (score : ℚ) : Option String → ℚ
  | none => score
  | some p =>
    if p = "" then score
    else if containsSub (lowerStr p) "cancel" then (1 : ℚ)
    else score

/-- Embedding of `risk_score_cancel` from src/app.py lines 178-190. -/
def risk_score_cancel (baseline_prob : ℚ) (faa_status : Option FAAStatus)
    (live_phase : Option String) : ℚ :=
  max 0 (min 1 (cancelPhaseStep (cancelStatusStep baseline_prob faa_status) live_phase))

/-- Modelled from the spec: the delay-risk tier increment attributed to an
airport-status record — 0.35 on a ground stop / gs match, else 0.20 on a
ground delay / edct match, else 0.10 on an arrival / depart reason match,
else 0 (first match wins); an absent status contributes 0. -/
def specDelayTier : Option FAAStatus → ℚ
  | none => 0
  | some st =>
    if containsSub (lowerStr st.delay) "ground stop" || containsSub (lowerStr st.reason) "gs" then
      35/100
    else if containsSub (lowerStr st.delay) "ground delay"
        || containsSub (lowerStr st.reason) "edct" then
      20/100
    else if containsSub (lowerStr st.reason) "arrival"
        || containsSub (lowerStr st.reason) "depart" then
      10/100
    else 0

/-- Modelled from the spec: the independent 0.05 delay bump for a live flight
phase containing one of scheduled, delayed, on gate, boarding; an absent phase
contributes 0. -/
def specDelayPhaseBonus : Option String → ℚ
  | none => 0
  | some p =>
    if containsSub (lowerStr p) "scheduled" || containsSub (lowerStr p) "delayed"
        || containsSub (lowerStr p) "on gate" || containsSub (lowerStr p) "boarding" then
      5/100
    else 0

/-- Modelled from the spec: the cancellation-risk tier increment attributed to
an airport-status record — 0.25 on ground stop / gs, else 0.10 on ground delay
/ edct, no third tier. -/
def specCancelTier : Option FAAStatus → ℚ
  | none => 0
  | some st =>
    if containsSub (lowerStr st.delay) "ground stop" || containsSub (lowerStr st.reason) "gs" then
      25/100
    else if containsSub (lowerStr st.delay) "ground delay"
        || containsSub (lowerStr st.reason) "edct" then
      10/100
    else 0

/-- Modelled from the spec: whether the live flight phase forces the
cancellation risk to 1 (it contains the substring cancel). -/
def specCancelOverride : Option String → Bool
  | none => false
  | some p => containsSub (lowerStr p) "cancel"

/-- Lexicographic character comparison by code point, as Python compares
characters inside strings. -/
def charLt (a b : Char) : Bool := a.toNat < b.toNat

/-- Lexicographic comparison of character lists by code point. -/
def listCharLt : List Char → List Char → Bool
  | [], [] => false
  | [], _ :: _ => true
  | _ :: _, [] => false
  | a :: as, b :: bs => charLt a b || (a == b && listCharLt as bs)

/-- Lexicographic strict comparison of strings by code point, as Python
compares the string values pandas sorts. -/
def strLtB (a b : String) : Bool := listCharLt a.toList b.toList

/-- Minimum of two strings in code-point order. -/
def strMin (a b : String) : String := if strLtB a b then a else b

/-- Least element of a list of strings in code-point order, when the list is
non-empty. -/
def listMinStr : List String → Option String
  | [] => none
  | v :: vs => some ((listMinStr vs).elim v (strMin v))

/-- Occurrence count of a value in a list of strings, as pandas value counts
count a label inside a grouped column. -/
def countStr (l : List String) (v : String) : Nat :=
  (l.filter (fun w => w == v)).length

/-- The values of maximal frequency in a list of strings: the set of modes that
pandas Series.mode returns (it returns them in sorted order). -/
def modeCandidates (l : List String) : List String :=
  l.dedup.filter (fun v => l.dedup.all (fun w => decide (countStr l w ≤ countStr l v)))

/-- Embedding of the per-group reason statistic of src/app.py line 270,
`x.mode().iat[0] if not x.mode().empty else "Unknown"`: pandas Series.mode
returns the maximal-frequency values in sorted order, so `.iat[0]` is the least
mode in code-point order; an empty group falls back to Unknown. -/
def seriesModeFirst (l : List String) : String :=
  (listMinStr (modeCandidates l)).getD "Unknown"

/-- One raw input row after `standardize_cols` and the `pd.to_numeric` cleanup
of src/app.py lines 247-249: the five required columns plus the optional
cancellation columns. `none` models a pandas NaN cell (a missing value or a
failed numeric coercion); `cancel_count` is the cell of the resolved
cancellation-count column, `cancellation_code` and `cancellation_reason` the
cells of those columns when present. -/
structure RawRecord where
  carrier : Option String
  airport : Option String
  arr_flights : Option ℚ
  arr_del15 : Option ℚ
  arr_delay : Option ℚ
  cancel_count : Option ℚ
  cancellation_code : Option String
  cancellation_reason : Option String
  deriving Repr, DecidableEq

/-- Which optional cancellation columns the loaded table carries: whether one
of the CANCEL_CANDIDATES count columns resolved (src/app.py lines 219-220),
and whether the cancellation_code / cancellation_reason columns are present
(lines 223-227). -/
structure Schema where
  hasCancelCount : Bool
  hasCancelCode : Bool
  hasCancelReason : Bool
  deriving Repr, DecidableEq

/-- Truncation of a rational toward zero, as numpy astype(int) converts the
coerced float column to integers. -/
def truncQ (q : ℚ) : ℤ := if 0 ≤ q then ⌊q⌋ else ⌈q⌉

/-- Embedding of the unified cancel-flag construction of src/app.py lines
232-237: with a count column, `pd.to_numeric(...).fillna(0).astype(int)`
(coerce, treat invalid as 0, truncate to integer — note this keeps counts as
counts, it does not binarize); else with a cancellation_code column,
`notna().astype(int)`; else the constant 0. -/
def cancelFlag (sch : Schema) (r : RawRecord) : ℤ :=
  if sch.hasCancelCount then truncQ ((r.cancel_count).getD 0)
  else if sch.hasCancelCode then (if r.cancellation_code.isSome then 1 else 0)
  else 0

/-- Embedding of CANCEL_REASON_MAP from src/app.py line 229, as the dict
lookup that Series.map performs per cell (a key not in the dict yields NaN). -/
def CANCEL_REASON_MAP (c : String) : Option String :=
  if c = "A" then some "Carrier"
  else if c = "B" then some "Weather"
  else if c = "C" then some "NAS"
  else if c = "D" then some "Security"
  else none

/-- Embedding of the unified reason construction of src/app.py lines 239-244:
with a cancellation_code column, `map(CANCEL_REASON_MAP).fillna("Other/Unknown")`
— Series.map sends a NaN cell (and any unmapped code) to NaN, so the fillna
turns both a null code and an unknown code into Other/Unknown; else with a
cancellation_reason column, `fillna("Unknown")`; else the constant Unknown. -/
def cancelReason (sch : Schema) (r : RawRecord) : String :=
  if sch.hasCancelCode then
    match r.cancellation_code with
    | none => "Other/Unknown"
    | some c => (CANCEL_REASON_MAP c).getD "Other/Unknown"
  else if sch.hasCancelReason then (r.cancellation_reason).getD "Unknown"
  else "Unknown"

/-- Presence of the five required fields, modelling the
`dropna(subset=[carrier, airport, arr_flights, arr_del15, arr_delay])` of
src/app.py line 251. -/
def requiredPresent (r : RawRecord) : Bool :=
  r.carrier.isSome && r.airport.isSome && r.arr_flights.isSome
    && r.arr_del15.isSome && r.arr_delay.isSome

/-- Positivity of the flights count, modelling `df[df[arr_flights_col] > 0]`
of src/app.py line 252. -/
def posFlights (r : RawRecord) : Bool := decide (0 < (r.arr_flights).getD 0)

/-- The working record set `df` of src/app.py lines 251-252: rows with all
required fields present and a positive flights count. -/
def filteredRecords (raw : List RawRecord) : List RawRecord :=
  (raw.filter requiredPresent).filter posFlights

/-- The groupby key of a record: pandas groupby drops rows whose key contains
NaN, so only rows with both carrier and airport present carry a key. -/
def keyOf (r : RawRecord) : Option (String × String) :=
  match r.carrier, r.airport with
  | some c, some a => some (c, a)
  | _, _ => none

/-- The distinct (carrier, airport) keys of a record list; pandas produces the
groups in sorted key order, but no claim depends on row order, so the model
keeps an arbitrary duplicate-free enumeration. -/
def groupKeys (l : List RawRecord) : List (String × String) :=
  (l.filterMap keyOf).dedup

/-- The records of a list belonging to one (carrier, airport) group. -/
def groupOf (l : List RawRecord) (k : String × String) : List RawRecord :=
  l.filter (fun r => keyOf r == some k)

/-- One row of the aggregate summary `grouped` (src/app.py lines 255-273)
after the merge with `reason_summary`. -/
structure GroupRow where
  carrier : String
  airport : String
  total_flights : ℚ
  delayed_flights : ℚ
  avg_delay : ℚ
  canceled_flights : ℤ
  delay_probability : ℚ
  cancel_probability : ℚ
  top_cancel_reason : String
  deriving Repr, DecidableEq

/-- The aggregate row for one key: sums and mean over the filtered group `df`
(src/app.py lines 255-265), and the modal cancel reason over the group of the
UNFILTERED `raw` table (lines 268-272), merged in by key (line 273; the merge
is total on summary rows because every key of the filtered table is a key of
the raw table). -/
def makeRow (sch : Schema) (raw df : List RawRecord) (k : String × String) : GroupRow :=
  let g := groupOf df k
  let total := (g.map (fun r => (r.arr_flights).getD 0)).sum
  let delayed := (g.map (fun r => (r.arr_del15).getD 0)).sum
  let avg := (g.map (fun r => (r.arr_delay).getD 0)).sum / (g.length : ℚ)
  let canceled := (g.map (cancelFlag sch)).sum
  let reasons := (groupOf raw k).map (cancelReason sch)
  { carrier := k.1
    airport := k.2
    total_flights := total
    delayed_flights := delayed
    avg_delay := avg
    canceled_flights := canceled
    delay_probability := delayed / total
    cancel_probability := (canceled : ℚ) / total
    top_cancel_reason := seriesModeFirst reasons }

/-- The full aggregate summary of src/app.py lines 255-273: one row per
distinct (carrier, airport) key of the filtered working set. -/
def summary (sch : Schema) (raw : List RawRecord) : List GroupRow :=
  (groupKeys (filteredRecords raw)).map (makeRow sch raw (filteredRecords raw))

/-- Example schema: a numeric cancellation-count column resolved. -/
def exSchCount : Schema := ⟨true, false, false⟩

/-- Example schema: only the cancellation_code column is present. -/
def exSchCode : Schema := ⟨false, true, false⟩

/-- Example schema: only the free-text cancellation_reason column is present. -/
def exSchReason : Schema := ⟨false, false, true⟩

/-- Example record: a fully valid row whose cancellation-count cell is 2. -/
def exRecCount2 : RawRecord :=
  ⟨some "Delta", some "Richmond", some 1, some 0, some 0, some 2, none, none⟩

/-- Example record: a fully valid row whose cancellation-count cell is 1. -/
def exRecCount1 : RawRecord :=
  ⟨some "Delta", some "Richmond", some 1, some 0, some 0, some 1, none, none⟩

/-- Example record: a valid row with cancellation code B (Weather). -/
def exRecCodeB : RawRecord :=
  ⟨some "Delta", some "Richmond", some 1, some 0, some 0, none, some "B", none⟩

/-- Example record: a valid row with cancellation code A (Carrier). -/
def exRecCodeA : RawRecord :=
  ⟨some "Delta", some "Richmond", some 1, some 0, some 0, none, some "A", none⟩

/-- Example record: a valid row with a null cancellation code. -/
def exRecCodeNull : RawRecord :=
  ⟨some "Delta", some "Richmond", some 1, some 0, some 0, none, none, none⟩

/-- Example record: a row with a null flights count (so it is excluded from the
numeric aggregation) carrying cancellation code B. -/
def exRecNullFlights : RawRecord :=
  ⟨some "Delta", some "Richmond", none, some 0, some 0, none, some "B", none⟩

/-- Example record: a valid row with no cancellation columns beyond a free-text
reason cell. -/
def exRecReasonText : RawRecord :=
  ⟨some "United", some "Atlanta", some 80, some 10, some (62/10), none, none, some "Storm"⟩

section RiskLemmas

lemma min_one_shift (a y : ℚ) (hy : 0 ≤ y) : min 1 (min 1 a + y) = min 1 (a + y) := by
  rcases le_total a 1 with h | h
  · rw [min_eq_right h]
  · rw [min_eq_left h, min_eq_left (by linarith : (1:ℚ) ≤ 1 + y),
      min_eq_left (by linarith : (1:ℚ) ≤ a + y)]

lemma min_one_idem (a : ℚ) : min 1 (min 1 a) = min 1 a :=
  min_eq_right (min_le_left _ _)

lemma specDelayPhaseBonus_nonneg (p : Option String) : 0 ≤ specDelayPhaseBonus p := by
  cases p with
  | none => simp [specDelayPhaseBonus]
  | some q =>
    simp only [specDelayPhaseBonus]
    split_ifs <;> norm_num

lemma min_delayStatusStep (b y : ℚ) (hy : 0 ≤ y) (faa : Option FAAStatus) :
    min 1 (delayStatusStep b faa + y) = min 1 (b + specDelayTier faa + y) := by
  cases faa with
  | none => simp [delayStatusStep, specDelayTier]
  | some st =>
    simp only [delayStatusStep, specDelayTier]
    split_ifs with h1 h2 h3
    · rw [min_one_shift _ _ hy]
    · rw [min_one_shift _ _ hy]
    · rw [min_one_shift _ _ hy]
    · simp

lemma min_delayPhaseStep (s : ℚ) (p : Option String) :
    min 1 (delayPhaseStep s p) = min 1 (s + specDelayPhaseBonus p) := by
  cases p with
  | none => simp [delayPhaseStep, specDelayPhaseBonus]
  | some q =>
    by_cases hq : q = ""
    · subst hq
      have h0 : specDelayPhaseBonus (some "") = 0 := rfl
      simp [delayPhaseStep, h0]
    · simp only [delayPhaseStep, specDelayPhaseBonus, if_neg hq]
      split_ifs with h
      · exact min_one_idem _
      · simp

lemma risk_score_delay_eq (b : ℚ) (faa : Option FAAStatus) (p : Option String) :
    risk_score_delay b faa p = clamp01 (b + specDelayTier faa + specDelayPhaseBonus p) := by
  unfold risk_score_delay clamp01
  rw [min_delayPhaseStep, min_delayStatusStep _ _ (specDelayPhaseBonus_nonneg p)]

lemma min_cancelStatusStep (b y : ℚ) (hy : 0 ≤ y) (faa : Option FAAStatus) :
    min 1 (cancelStatusStep b faa + y) = min 1 (b + specCancelTier faa + y) := by
  cases faa with
  | none => simp [cancelStatusStep, specCancelTier]
  | some st =>
    simp only [cancelStatusStep, specCancelTier]
    split_ifs with h1 h2
    · rw [min_one_shift _ _ hy]
    · rw [min_one_shift _ _ hy]
    · simp

lemma min_cancelStatusStep_zero (b : ℚ) (faa : Option FAAStatus) :
    min 1 (cancelStatusStep b faa) = min 1 (b + specCancelTier faa) := by
  have h := min_cancelStatusStep b 0 le_rfl faa
  simpa using h

lemma cancelPhaseStep_none (s : ℚ) : cancelPhaseStep s none = s := rfl

lemma cancelPhaseStep_empty (s : ℚ) : cancelPhaseStep s (some "") = s := rfl

lemma cancelPhaseStep_override (s : ℚ) {q : String} (hq : q ≠ "")
    (hc : containsSub (lowerStr q) "cancel" = true) :
    cancelPhaseStep s (some q) = 1 := by
  simp only [cancelPhaseStep, if_neg hq, if_pos hc]

lemma cancelPhaseStep_skip (s : ℚ) {q : String} (hq : q ≠ "")
    (hc : containsSub (lowerStr q) "cancel" = false) :
    cancelPhaseStep s (some q) = s := by
  simp only [cancelPhaseStep, if_neg hq, hc, Bool.false_eq_true, if_false]

lemma risk_score_cancel_eq (b : ℚ) (faa : Option FAAStatus) (p : Option String) :
    risk_score_cancel b faa p
      = if specCancelOverride p = true then 1 else clamp01 (b + specCancelTier faa) := by
  cases p with
  | none =>
    have hov : specCancelOverride (none : Option String) = false := rfl
    rw [hov]
    simp only [Bool.false_eq_true, if_false]
    unfold risk_score_cancel clamp01
    rw [cancelPhaseStep_none, min_cancelStatusStep_zero]
  | some q =>
    by_cases hq : q = ""
    · subst hq
      have hov : specCancelOverride (some "") = false := rfl
      rw [hov]
      simp only [Bool.false_eq_true, if_false]
      unfold risk_score_cancel clamp01
      rw [cancelPhaseStep_empty, min_cancelStatusStep_zero]
    · by_cases hc : containsSub (lowerStr q) "cancel" = true
      · have hov : specCancelOverride (some q) = true := hc
        rw [hov]
        simp only [if_pos rfl]
        unfold risk_score_cancel
        rw [cancelPhaseStep_override _ hq hc]
        norm_num
      · have hcf : containsSub (lowerStr q) "cancel" = false := by
          simpa using hc
        have hov : specCancelOverride (some q) = false := hcf
        rw [hov]
        simp only [Bool.false_eq_true, if_false]
        unfold risk_score_cancel clamp01
        rw [cancelPhaseStep_skip _ hq hcf, min_cancelStatusStep_zero]

lemma clamp01_nonneg (x : ℚ) : 0 ≤ clamp01 x := le_max_left 0 _

lemma clamp01_le_one (x : ℚ) : clamp01 x ≤ 1 :=
  max_le (by norm_num) (min_le_left _ _)

lemma clamp01_mono {x y : ℚ} (h : x ≤ y) : clamp01 x ≤ clamp01 y :=
  max_le_max le_rfl (min_le_min le_rfl h)

end RiskLemmas

/-- C1: for every baseline probability in the unit interval, every
airport-status record and every flight-phase string, `risk_score_delay` returns
the baseline plus the first-match tier increment (0.35 for ground stop / gs,
else 0.20 for ground delay / edct, else 0.10 for arrival / depart) plus an
independent 0.05 phase bump, clamped into the unit interval; in particular
baseline 0.20 with status text containing Ground Stop and no qualifying phase
yields exactly 0.55. -/
theorem C1_delay_risk_formula :
    (∀ (b : ℚ) (st : FAAStatus) (p : String), 0 ≤ b → b ≤ 1 →
      risk_score_delay b (some st) (some p)
        = clamp01 (b + specDelayTier (some st) + specDelayPhaseBonus (some p)))
    ∧ risk_score_delay (20/100) (some ⟨"Ground Stop", ""⟩) (some "") = 55/100 := by
  constructor
  · intro b st p _ _
    exact risk_score_delay_eq b (some st) (some p)
  · rw [risk_score_delay_eq]
    have ht : specDelayTier (some ⟨"Ground Stop", ""⟩) = 35/100 := rfl
    have hp : specDelayPhaseBonus (some "") = 0 := rfl
    rw [ht, hp]
    norm_num [clamp01, min_def, max_def]

/-- Witness for C1 at a concrete baseline, status and phase. -/
theorem C1_delay_risk_formula_witness :
    risk_score_delay (1/2) (some ⟨"", ""⟩) (some "Boarding")
      = clamp01 (1/2 + specDelayTier (some ⟨"", ""⟩)
          + specDelayPhaseBonus (some "Boarding")) :=
  C1_delay_risk_formula.1 (1/2) ⟨"", ""⟩ "Boarding" (by norm_num) (by norm_num)

/-- C2: for every baseline probability in the unit interval, every
airport-status signal and every flight-phase string, `risk_score_cancel`
returns the baseline plus 0.25 on a ground stop / gs match else 0.10 on a
ground delay / edct match (no third tier), clamped into the unit interval,
except that a phase string containing cancel forces the result to exactly 1
regardless of baseline and status; in particular baseline 0.01 with phase
Cancelled yields 1. -/
theorem C2_cancel_risk_formula :
    (∀ (b : ℚ) (faa : Option FAAStatus) (p : String), 0 ≤ b → b ≤ 1 →
      risk_score_cancel b faa (some p)
        = if specCancelOverride (some p) = true then 1
          else clamp01 (b + specCancelTier faa))
    ∧ (∀ (b : ℚ) (faa : Option FAAStatus) (p : String), 0 ≤ b → b ≤ 1 →
        containsSub (lowerStr p) "cancel" = true → risk_score_cancel b faa (some p) = 1)
    ∧ risk_score_cancel (1/100) none (some "Cancelled") = 1 := by
  refine ⟨fun b faa p _ _ => risk_score_cancel_eq b faa (some p), ?_, ?_⟩
  · intro b faa p _ _ hc
    rw [risk_score_cancel_eq]
    have hov : specCancelOverride (some p) = true := hc
    rw [hov, if_pos rfl]
  · rw [risk_score_cancel_eq]
    have hov : specCancelOverride (some "Cancelled") = true := rfl
    rw [hov, if_pos rfl]

/-- Witness for C2 at a concrete baseline, status and phase. -/
theorem C2_cancel_risk_formula_witness :
    risk_score_cancel (1/2) none (some "boarding")
      = if specCancelOverride (some "boarding") = true then 1
        else clamp01 (1/2 + specCancelTier none) :=
  C2_cancel_risk_formula.1 (1/2) none "boarding" (by norm_num) (by norm_num)

/-- C3: for fixed live signals both risk scores are monotonically non-decreasing
in the baseline probability over the unit interval, and for every baseline in
the unit interval both results lie in the unit interval. -/
theorem C3_risk_monotone_bounded :
    (∀ (faa : Option FAAStatus) (p : Option String) (b1 b2 : ℚ),
        0 ≤ b1 → b1 ≤ b2 → b2 ≤ 1 →
        risk_score_delay b1 faa p ≤ risk_score_delay b2 faa p
          ∧ risk_score_cancel b1 faa p ≤ risk_score_cancel b2 faa p)
    ∧ (∀ (faa : Option FAAStatus) (p : Option String) (b : ℚ), 0 ≤ b → b ≤ 1 →
        0 ≤ risk_score_delay b faa p ∧ risk_score_delay b faa p ≤ 1
          ∧ 0 ≤ risk_score_cancel b faa p ∧ risk_score_cancel b faa p ≤ 1) := by
  constructor
  · intro faa p b1 b2 _ h12 _
    constructor
    · rw [risk_score_delay_eq, risk_score_delay_eq]
      exact clamp01_mono (by linarith)
    · rw [risk_score_cancel_eq, risk_score_cancel_eq]
      by_cases hov : specCancelOverride p = true
      · rw [hov]; simp
      · rw [if_neg hov, if_neg hov]
        exact clamp01_mono (by linarith)
  · intro faa p b _ _
    rw [risk_score_delay_eq, risk_score_cancel_eq]
    refine ⟨clamp01_nonneg _, clamp01_le_one _, ?_, ?_⟩
    · by_cases hov : specCancelOverride p = true
      · rw [hov, if_pos rfl]; norm_num
      · rw [if_neg hov]; exact clamp01_nonneg _
    · by_cases hov : specCancelOverride p = true
      · rw [hov, if_pos rfl]
      · rw [if_neg hov]; exact clamp01_le_one _

/-- Witness for C3 at concrete baselines and signals. -/
theorem C3_risk_monotone_bounded_witness :
    risk_score_delay (1/4) none none ≤ risk_score_delay (1/2) none none
      ∧ 0 ≤ risk_score_cancel (9/10) (some ⟨"Ground Stop", ""⟩) none := by
  constructor
  · exact (C3_risk_monotone_bounded.1 none none (1/4) (1/2) (by norm_num) (by norm_num)
      (by norm_num)).1
  · exact (C3_risk_monotone_bounded.2 (some ⟨"Ground Stop", ""⟩) none (9/10) (by norm_num)
      (by norm_num)).2.2.1

section AggregationLemmas

lemma mem_filteredRecords {raw : List RawRecord} {r : RawRecord} :
    r ∈ filteredRecords raw
      ↔ r ∈ raw ∧ requiredPresent r = true ∧ posFlights r = true := by
  constructor
  · intro h
    have h1 := List.mem_filter.mp h
    have h2 := List.mem_filter.mp h1.1
    exact ⟨h2.1, h2.2, h1.2⟩
  · rintro ⟨h1, h2, h3⟩
    exact List.mem_filter.mpr ⟨List.mem_filter.mpr ⟨h1, h2⟩, h3⟩

lemma mem_groupKeys {l : List RawRecord} {k : String × String} :
    k ∈ groupKeys l ↔ ∃ r ∈ l, keyOf r = some k := by
  simp [groupKeys, List.mem_dedup, List.mem_filterMap]

lemma mem_groupOf {l : List RawRecord} {k : String × String} {r : RawRecord} :
    r ∈ groupOf l k ↔ r ∈ l ∧ keyOf r = some k := by
  simp [groupOf, List.mem_filter]

lemma keyOf_eq_some {r : RawRecord} {k : String × String} (h : keyOf r = some k) :
    r.carrier = some k.1 ∧ r.airport = some k.2 := by
  unfold keyOf at h
  cases hc : r.carrier with
  | none => rw [hc] at h; simp at h
  | some c =>
    cases ha : r.airport with
    | none => rw [hc, ha] at h; simp at h
    | some a =>
      rw [hc, ha] at h
      simp only [Option.some.injEq] at h
      rw [← h]
      exact ⟨rfl, rfl⟩

lemma mem_summary {sch : Schema} {raw : List RawRecord} {row : GroupRow} :
    row ∈ summary sch raw
      ↔ ∃ k ∈ groupKeys (filteredRecords raw),
          row = makeRow sch raw (filteredRecords raw) k := by
  simp only [summary, List.mem_map, eq_comm]

lemma makeRow_total (sch : Schema) (raw df : List RawRecord) (k : String × String) :
    (makeRow sch raw df k).total_flights
      = ((groupOf df k).map (fun r => (r.arr_flights).getD 0)).sum := rfl

lemma makeRow_delayed (sch : Schema) (raw df : List RawRecord) (k : String × String) :
    (makeRow sch raw df k).delayed_flights
      = ((groupOf df k).map (fun r => (r.arr_del15).getD 0)).sum := rfl

lemma makeRow_canceled (sch : Schema) (raw df : List RawRecord) (k : String × String) :
    (makeRow sch raw df k).canceled_flights
      = ((groupOf df k).map (cancelFlag sch)).sum := rfl

lemma makeRow_delay_prob (sch : Schema) (raw df : List RawRecord) (k : String × String) :
    (makeRow sch raw df k).delay_probability
      = (makeRow sch raw df k).delayed_flights / (makeRow sch raw df k).total_flights := rfl

lemma makeRow_cancel_prob (sch : Schema) (raw df : List RawRecord) (k : String × String) :
    (makeRow sch raw df k).cancel_probability
      = ((makeRow sch raw df k).canceled_flights : ℚ) / (makeRow sch raw df k).total_flights :=
  rfl

lemma makeRow_reason (sch : Schema) (raw df : List RawRecord) (k : String × String) :
    (makeRow sch raw df k).top_cancel_reason
      = seriesModeFirst ((groupOf raw k).map (cancelReason sch)) := rfl

lemma makeRow_key (sch : Schema) (raw df : List RawRecord) (k : String × String) :
    (makeRow sch raw df k).carrier = k.1 ∧ (makeRow sch raw df k).airport = k.2 :=
  ⟨rfl, rfl⟩

lemma summary_total_pos (sch : Schema) (raw : List RawRecord) :
    ∀ row ∈ summary sch raw, 0 < row.total_flights := by
  intro row hrow
  obtain ⟨k, hk, rfl⟩ := mem_summary.mp hrow
  rw [makeRow_total]
  obtain ⟨r, hr, hkey⟩ := mem_groupKeys.mp hk
  have hrg : r ∈ groupOf (filteredRecords raw) k := mem_groupOf.mpr ⟨hr, hkey⟩
  apply List.sum_pos
  · intro x hx
    obtain ⟨r2, hr2, rfl⟩ := List.mem_map.mp hx
    have hpf := (mem_filteredRecords.mp (mem_groupOf.mp hr2).1).2.2
    simpa [posFlights] using hpf
  · exact List.ne_nil_of_mem (List.mem_map_of_mem _ hrg)

end AggregationLemmas

/-- C4: the claim that the derived cancellation flag is binary (1 exactly when
the coerced count is non-zero) fails on the code: the flag is
`pd.to_numeric(...).fillna(0).astype(int)`, which keeps a count of 2 as 2. -/
theorem C4_counterexample :
    ¬ (∀ (sch : Schema) (r : RawRecord), sch.hasCancelCount = true →
        cancelFlag sch r = if (r.cancel_count).getD 0 ≠ 0 then 1 else 0) := by
  intro h
  have h2 := h exSchCount exRecCount2 rfl
  rw [if_pos (by norm_num [exRecCount2] : ((exRecCount2.cancel_count).getD 0 ≠ (0:ℚ)))] at h2
  have h3 : cancelFlag exSchCount exRecCount2 = 2 := by
    have hcast : ((2:ℚ)) = ((2:ℤ) : ℚ) := by norm_num
    simp only [cancelFlag, exSchCount, exRecCount2, truncQ, Option.getD_some, if_true]
    rw [if_pos (by norm_num), hcast, Int.floor_intCast]
  rw [h3] at h2
  norm_num at h2

/-- C4 amended: with a numeric cancellation-count column present, the derived
flag equals the coerced cell value (invalid treated as 0) truncated toward
zero — a count greater than 1 stays that count — and the binary rule of the
claim holds exactly on 0/1-valued cells. -/
theorem C4_cancel_flag_is_count (sch : Schema) (r : RawRecord)
    (hc : sch.hasCancelCount = true) :
    cancelFlag sch r = truncQ ((r.cancel_count).getD 0)
    ∧ ((r.cancel_count).getD 0 = 0 → cancelFlag sch r = 0)
    ∧ ((r.cancel_count).getD 0 = 1 → cancelFlag sch r = 1) := by
  refine ⟨by simp [cancelFlag, hc], ?_, ?_⟩
  · intro h0
    simp [cancelFlag, hc, h0, truncQ]
  · intro h1
    simp [cancelFlag, hc, h1, truncQ]

/-- Witness for C4 amended at a concrete schema and record. -/
theorem C4_cancel_flag_is_count_witness :
    cancelFlag exSchCount exRecCount1 = truncQ ((exRecCount1.cancel_count).getD 0)
      ∧ ((exRecCount1.cancel_count).getD 0 = 0 → cancelFlag exSchCount exRecCount1 = 0)
      ∧ ((exRecCount1.cancel_count).getD 0 = 1 → cancelFlag exSchCount exRecCount1 = 1) :=
  C4_cancel_flag_is_count exSchCount exRecCount1 rfl

/-- C5: the claim that an absent (null) cancellation code yields the reason
label Unknown fails on the code: `map(CANCEL_REASON_MAP)` sends a NaN code to
NaN and the subsequent `fillna("Other/Unknown")` turns it into Other/Unknown. -/
theorem C5_counterexample :
    ¬ (∀ (sch : Schema) (r : RawRecord), sch.hasCancelCode = true →
        r.cancellation_code = none → cancelReason sch r = "Unknown") := by
  intro h
  have h2 := h exSchCode exRecCodeNull rfl rfl
  revert h2
  decide

/-- C5 amended: with the cancellation-code column as the reason source, code A
maps to Carrier, B to Weather, C to NAS, D to Security, any other non-null
code to Other/Unknown, and a null code also maps to Other/Unknown (not
Unknown). -/
theorem C5_cancel_reason_mapping (sch : Schema) (r : RawRecord)
    (hc : sch.hasCancelCode = true) :
    (r.cancellation_code = some "A" → cancelReason sch r = "Carrier")
    ∧ (r.cancellation_code = some "B" → cancelReason sch r = "Weather")
    ∧ (r.cancellation_code = some "C" → cancelReason sch r = "NAS")
    ∧ (r.cancellation_code = some "D" → cancelReason sch r = "Security")
    ∧ (∀ c, r.cancellation_code = some c →
        c ≠ "A" → c ≠ "B" → c ≠ "C" → c ≠ "D" → cancelReason sch r = "Other/Unknown")
    ∧ (r.cancellation_code = none → cancelReason sch r = "Other/Unknown") := by
  refine ⟨fun h => ?_, fun h => ?_, fun h => ?_, fun h => ?_, fun c h hA hB hC hD => ?_,
    fun h => ?_⟩
  · simp [cancelReason, hc, h, CANCEL_REASON_MAP]
  · simp [cancelReason, hc, h, CANCEL_REASON_MAP]
  · simp [cancelReason, hc, h, CANCEL_REASON_MAP]
  · simp [cancelReason, hc, h, CANCEL_REASON_MAP]
  · simp [cancelReason, hc, h, CANCEL_REASON_MAP, hA, hB, hC, hD]
  · simp [cancelReason, hc, h]

/-- Witness for C5 amended at a concrete schema and record. -/
theorem C5_cancel_reason_mapping_witness :
    exRecCodeA.cancellation_code = some "A"
      ∧ cancelReason exSchCode exRecCodeA = "Carrier" :=
  ⟨rfl, (C5_cancel_reason_mapping exSchCode exRecCodeA rfl).1 rfl⟩

/-- C6: every aggregate row has a positive total flights count, and a
(carrier, airport) pair all of whose records are dropped by the
required-fields / positive-flights filter does not appear in the summary. -/
theorem C6_summary_rows_positive (sch : Schema) (raw : List RawRecord) :
    (∀ row ∈ summary sch raw, 0 < row.total_flights)
    ∧ (∀ c a,
        (∀ r ∈ raw, r.carrier = some c → r.airport = some a →
          ¬ (requiredPresent r = true ∧ 0 < (r.arr_flights).getD 0)) →
        ∀ row ∈ summary sch raw, ¬ (row.carrier = c ∧ row.airport = a)) := by
  refine ⟨summary_total_pos sch raw, ?_⟩
  rintro c a hexcl row hrow ⟨hc, ha⟩
  obtain ⟨k, hk, rfl⟩ := mem_summary.mp hrow
  obtain ⟨r, hr, hkey⟩ := mem_groupKeys.mp hk
  obtain ⟨hraw, hreq, hpos⟩ := mem_filteredRecords.mp hr
  obtain ⟨hcar, hair⟩ := keyOf_eq_some hkey
  obtain ⟨hk1, hk2⟩ := makeRow_key sch raw (filteredRecords raw) k
  rw [hk1] at hc
  rw [hk2] at ha
  refine hexcl r hraw ?_ ?_ ⟨hreq, ?_⟩
  · rw [hcar, hc]
  · rw [hair, ha]
  · simpa [posFlights] using hpos

/-- Witness for C6 at a concrete schema and record set. -/
theorem C6_summary_rows_positive_witness :
    0 < (makeRow exSchCount [exRecCount2]
          (filteredRecords [exRecCount2]) ("Delta", "Richmond")).total_flights :=
  (C6_summary_rows_positive exSchCount [exRecCount2]).1 _
    (List.mem_map_of_mem _
      (by decide : ("Delta", "Richmond") ∈ groupKeys (filteredRecords [exRecCount2])))

/-- C10: with neither a numeric cancellation-count column nor a
cancellation-code column, every record gets flag 0, and every aggregate row
has zero canceled flights and cancel probability zero. -/
theorem C10_no_cancel_signal (sch : Schema) (raw : List RawRecord)
    (hcount : sch.hasCancelCount = false) (hcode : sch.hasCancelCode = false) :
    (∀ r, cancelFlag sch r = 0)
    ∧ (∀ row ∈ summary sch raw, row.canceled_flights = 0 ∧ row.cancel_probability = 0) := by
  have hflag : ∀ r, cancelFlag sch r = 0 := by
    intro r
    simp [cancelFlag, hcount, hcode]
  refine ⟨hflag, ?_⟩
  intro row hrow
  obtain ⟨k, hk, rfl⟩ := mem_summary.mp hrow
  have hzero : (makeRow sch raw (filteredRecords raw) k).canceled_flights = 0 := by
    rw [makeRow_canceled]
    apply List.sum_eq_zero
    intro x hx
    obtain ⟨r2, _, rfl⟩ := List.mem_map.mp hx
    exact hflag r2
  refine ⟨hzero, ?_⟩
  rw [makeRow_cancel_prob, hzero]
  norm_num

/-- Witness for C10 at a concrete schema (free-text reason column only) and
record set. -/
theorem C10_no_cancel_signal_witness :
    cancelFlag exSchReason exRecReasonText = 0 :=
  (C10_no_cancel_signal exSchReason [exRecReasonText] rfl rfl).1 exRecReasonText

/-- C8: for every pair in the aggregate output, the modal cancellation reason
is computed over all raw records of that pair, including records the numeric
aggregation dropped for a missing required field; concretely, with one valid
record carrying a null code and two records with a null flights count carrying
code B, the pair aggregates only the valid record (total 1) yet reports
Weather as its top reason. -/
theorem C8_reason_computed_over_raw (sch : Schema) (raw : List RawRecord) :
    (∀ row ∈ summary sch raw,
      row.top_cancel_reason
        = seriesModeFirst
            ((groupOf raw (row.carrier, row.airport)).map (cancelReason sch)))
    ∧ (summary exSchCode [exRecCodeNull, exRecNullFlights, exRecNullFlights]).map
        (fun row => row.top_cancel_reason) = ["Weather"]
    ∧ (summary exSchCode [exRecCodeNull, exRecNullFlights, exRecNullFlights]).map
        (fun row => row.total_flights) = [1] := by
  refine ⟨?_, by decide, ?_⟩
  · intro row hrow
    obtain ⟨k, hk, rfl⟩ := mem_summary.mp hrow
    obtain ⟨hk1, hk2⟩ := makeRow_key sch raw (filteredRecords raw) k
    rw [hk1, hk2, makeRow_reason, Prod.mk.eta]
  · norm_num [summary, filteredRecords, requiredPresent, posFlights, groupKeys, keyOf,
      groupOf, makeRow, exRecCodeNull, exRecNullFlights, exSchCode,
      List.filterMap, List.dedup]

/-- Witness for C8 at a concrete schema, record set and summary row. -/
theorem C8_reason_computed_over_raw_witness :
    (makeRow exSchCode [exRecCodeNull, exRecNullFlights, exRecNullFlights]
        (filteredRecords [exRecCodeNull, exRecNullFlights, exRecNullFlights])
        ("Delta", "Richmond")).top_cancel_reason
      = seriesModeFirst
          ((groupOf [exRecCodeNull, exRecNullFlights, exRecNullFlights]
              ((makeRow exSchCode [exRecCodeNull, exRecNullFlights, exRecNullFlights]
                  (filteredRecords [exRecCodeNull, exRecNullFlights, exRecNullFlights])
                  ("Delta", "Richmond")).carrier,
               (makeRow exSchCode [exRecCodeNull, exRecNullFlights, exRecNullFlights]
                  (filteredRecords [exRecCodeNull, exRecNullFlights, exRecNullFlights])
                  ("Delta", "Richmond")).airport)).map (cancelReason exSchCode)) :=
  (C8_reason_computed_over_raw exSchCode
      [exRecCodeNull, exRecNullFlights, exRecNullFlights]).1 _
    (List.mem_map_of_mem _
      (by decide : ("Delta", "Richmond")
          ∈ groupKeys (filteredRecords [exRecCodeNull, exRecNullFlights, exRecNullFlights])))

section ModeLemmas

lemma charLt_irrefl (a : Char) : charLt a a = false := by
  simp [charLt]

lemma charLt_asymm {a b : Char} (h : charLt a b = true) : charLt b a = false := by
  simp only [charLt, decide_eq_true_eq] at h
  simp only [charLt, decide_eq_false_iff_not]
  omega

lemma charLt_trans {a b c : Char} (h1 : charLt a b = true) (h2 : charLt b c = true) :
    charLt a c = true := by
  simp only [charLt, decide_eq_true_eq] at h1 h2 ⊢
  omega

lemma listCharLt_irrefl : ∀ l : List Char, listCharLt l l = false
  | [] => rfl
  | a :: as => by
    simp [listCharLt, charLt_irrefl, listCharLt_irrefl as]

lemma listCharLt_asymm : ∀ {l1 l2 : List Char},
    listCharLt l1 l2 = true → listCharLt l2 l1 = false
  | [], [], h => by simp [listCharLt] at h
  | [], _ :: _, _ => rfl
  | _ :: _, [], h => by simp [listCharLt] at h
  | a :: as, b :: bs, h => by
    simp only [listCharLt, Bool.or_eq_true, Bool.and_eq_true, beq_iff_eq] at h
    simp only [listCharLt, Bool.or_eq_false_iff, Bool.and_eq_false_iff]
    rcases h with h | ⟨rfl, h⟩
    · refine ⟨charLt_asymm h, Or.inl ?_⟩
      simp only [beq_eq_false_iff_ne, ne_eq]
      rintro rfl
      rw [charLt_irrefl] at h
      exact Bool.false_ne_true h
    · exact ⟨charLt_irrefl a, Or.inr (listCharLt_asymm h)⟩

lemma listCharLt_trans : ∀ {l1 l2 l3 : List Char},
    listCharLt l1 l2 = true → listCharLt l2 l3 = true → listCharLt l1 l3 = true
  | [], [], _, h1, _ => by simp [listCharLt] at h1
  | [], _ :: _, [], _, h2 => by simp [listCharLt] at h2
  | [], _ :: _, _ :: _, _, _ => rfl
  | _ :: _, [], _, h1, _ => by simp [listCharLt] at h1
  | _ :: _, _ :: _, [], _, h2 => by simp [listCharLt] at h2
  | a :: as, b :: bs, c :: cs, h1, h2 => by
    simp only [listCharLt, Bool.or_eq_true, Bool.and_eq_true, beq_iff_eq] at h1 h2 ⊢
    rcases h1 with h1 | ⟨rfl, h1⟩
    · rcases h2 with h2 | ⟨rfl, h2⟩
      · exact Or.inl (charLt_trans h1 h2)
      · exact Or.inl h1
    · rcases h2 with h2 | ⟨rfl, h2⟩
      · exact Or.inl h2
      · exact Or.inr ⟨rfl, listCharLt_trans h1 h2⟩

lemma strLtB_irrefl (a : String) : strLtB a a = false :=
  listCharLt_irrefl a.toList

lemma strLtB_asymm {a b : String} (h : strLtB a b = true) : strLtB b a = false :=
  listCharLt_asymm h

lemma strLtB_trans {a b c : String} (h1 : strLtB a b = true) (h2 : strLtB b c = true) :
    strLtB a c = true :=
  listCharLt_trans h1 h2

lemma strMin_eq_or (a b : String) : strMin a b = a ∨ strMin a b = b := by
  unfold strMin
  split_ifs <;> simp

lemma strLtB_strMin_left (a b : String) : strLtB a (strMin a b) = false := by
  unfold strMin
  split_ifs with h
  · exact strLtB_irrefl a
  · simpa using h

lemma strLtB_strMin_right (a b : String) : strLtB b (strMin a b) = false := by
  unfold strMin
  split_ifs with h
  · exact strLtB_asymm h
  · exact strLtB_irrefl b

lemma listMinStr_mem : ∀ {l : List String} {m : String}, listMinStr l = some m → m ∈ l
  | [], m, h => by simp [listMinStr] at h
  | v :: vs, m, h => by
    simp only [listMinStr, Option.some.injEq] at h
    cases hvs : listMinStr vs with
    | none =>
      rw [hvs] at h
      simp only [Option.elim] at h
      exact h ▸ List.mem_cons_self v vs
    | some m2 =>
      rw [hvs] at h
      simp only [Option.elim] at h
      rcases strMin_eq_or v m2 with he | he <;> rw [he] at h
      · exact h ▸ List.mem_cons_self v vs
      · exact h ▸ List.mem_cons_of_mem v (listMinStr_mem hvs)

lemma listMinStr_le : ∀ {l : List String} {m : String}, listMinStr l = some m →
    ∀ v ∈ l, strLtB v m = false
  | [], m, h => by simp [listMinStr] at h
  | v :: vs, m, h => by
    intro u hu
    simp only [listMinStr, Option.some.injEq] at h
    cases hvs : listMinStr vs with
    | none =>
      have hnil : vs = [] := by
        cases vs with
        | nil => rfl
        | cons w ws => simp [listMinStr] at hvs
      rw [hvs] at h
      simp only [Option.elim] at h
      subst hnil
      rcases List.mem_singleton.mp hu with rfl
      rw [← h]
      exact strLtB_irrefl u
    | some m2 =>
      rw [hvs] at h
      simp only [Option.elim] at h
      subst h
      rcases List.mem_cons.mp hu with rfl | hu2
      · exact strLtB_strMin_left u m2
      · have hIH := listMinStr_le hvs u hu2
        unfold strMin
        split_ifs with hvm
        · cases hc : strLtB u v with
          | false => rfl
          | true =>
            have h2 := strLtB_trans hc hvm
            rw [hIH] at h2
            exact (Bool.false_ne_true h2).elim
        · exact hIH

lemma listMinStr_isSome {l : List String} (h : l ≠ []) : ∃ m, listMinStr l = some m := by
  cases l with
  | nil => exact absurd rfl h
  | cons v vs => exact ⟨_, rfl⟩

lemma exists_max_count : ∀ (l : List String) (f : String → Nat), l ≠ [] →
    ∃ v ∈ l, ∀ w ∈ l, f w ≤ f v
  | [], _, h => absurd rfl h
  | [v], f, _ => ⟨v, List.mem_singleton_self v, by
      intro w hw
      rcases List.mem_singleton.mp hw with rfl
      exact le_rfl⟩
  | v :: w :: vs, f, _ => by
    obtain ⟨m, hm, hmax⟩ := exists_max_count (w :: vs) f (by simp)
    rcases le_total (f v) (f m) with h | h
    · refine ⟨m, List.mem_cons_of_mem _ hm, ?_⟩
      intro u hu
      rcases List.mem_cons.mp hu with rfl | hu
      · exact h
      · exact hmax u hu
    · refine ⟨v, List.mem_cons_self _ _, ?_⟩
      intro u hu
      rcases List.mem_cons.mp hu with rfl | hu
      · exact le_rfl
      · exact le_trans (hmax u hu) h

lemma mem_modeCandidates {l : List String} {v : String} :
    v ∈ modeCandidates l
      ↔ v ∈ l.dedup ∧ ∀ w ∈ l.dedup, countStr l w ≤ countStr l v := by
  simp [modeCandidates, List.mem_filter, List.all_eq_true]

lemma modeCandidates_ne_nil {l : List String} (h : l ≠ []) : modeCandidates l ≠ [] := by
  have hd : l.dedup ≠ [] := by
    simpa [List.dedup_eq_nil] using h
  obtain ⟨v, hv, hmax⟩ := exists_max_count l.dedup (countStr l) hd
  exact List.ne_nil_of_mem (mem_modeCandidates.mpr ⟨hv, hmax⟩)

end ModeLemmas

/-- C7: the claim that a frequency tie among reason labels resolves to the
first tied value in input-row order fails on the code: pandas Series.mode
returns the tied modes in sorted order and `.iat[0]` picks the smallest, so a
group whose reasons arrive as Weather then Carrier (a 1-1 tie) reports
Carrier, not the first-encountered Weather. -/
theorem C7_counterexample :
    ([exRecCodeB, exRecCodeA].map (cancelReason exSchCode) = ["Weather", "Carrier"])
    ∧ (summary exSchCode [exRecCodeB, exRecCodeA]).map
        (fun row => row.top_cancel_reason) = ["Carrier"]
    ∧ ("Carrier" : String) ≠ "Weather" := by
  decide

/-- C7 amended: the modal reason selected for a group is a value of maximal
frequency, and among the values of maximal frequency it is the least in
code-point (lexicographic) order — not the first encountered in input order. -/
theorem C7_mode_tie_breaking :
    ∀ (l : List String), l ≠ [] →
      seriesModeFirst l ∈ modeCandidates l
      ∧ (∀ w ∈ l.dedup, countStr l w ≤ countStr l (seriesModeFirst l))
      ∧ (∀ v ∈ modeCandidates l, strLtB v (seriesModeFirst l) = false) := by
  intro l hl
  obtain ⟨m, hm⟩ := listMinStr_isSome (modeCandidates_ne_nil hl)
  have hsm : seriesModeFirst l = m := by simp [seriesModeFirst, hm]
  rw [hsm]
  have hmem : m ∈ modeCandidates l := listMinStr_mem hm
  exact ⟨hmem, (mem_modeCandidates.mp hmem).2, fun v hv => listMinStr_le hm v hv⟩

/-- Witness for C7 amended on the tied two-element reason list. -/
theorem C7_mode_tie_breaking_witness :
    seriesModeFirst ["Weather", "Carrier"] ∈ modeCandidates ["Weather", "Carrier"]
      ∧ (∀ w ∈ (["Weather", "Carrier"] : List String).dedup,
          countStr ["Weather", "Carrier"] w
            ≤ countStr ["Weather", "Carrier"] (seriesModeFirst ["Weather", "Carrier"]))
      ∧ (∀ v ∈ modeCandidates ["Weather", "Carrier"],
          strLtB v (seriesModeFirst ["Weather", "Carrier"]) = false) :=
  C7_mode_tie_breaking ["Weather", "Carrier"] (by decide)

/-- C9: the claim that both probabilities lie in the unit interval under the
data-model preconditions (non-negative counts, delayed at most flights) fails
for the cancel probability: the cancel flag of a count column is the raw count,
which may exceed the flights count of its record, so a single valid record with
flights 1 and cancellation count 2 produces cancel probability 2. -/
theorem C9_counterexample :
    (∀ r ∈ [exRecCount2],
        0 ≤ (r.arr_del15).getD 0
        ∧ (r.arr_del15).getD 0 ≤ (r.arr_flights).getD 0
        ∧ 0 ≤ (r.cancel_count).getD 0)
    ∧ (summary exSchCount [exRecCount2]).map (fun row => row.cancel_probability) = [2]
    ∧ ¬ ((2:ℚ) ≤ 1) := by
  refine ⟨?_, ?_, by norm_num⟩
  · intro r hr
    rcases List.mem_singleton.mp hr with rfl
    norm_num [exRecCount2]
  · norm_num [summary, filteredRecords, requiredPresent, posFlights, groupKeys, keyOf,
      groupOf, makeRow, cancelFlag, truncQ, exRecCount2, exSchCount,
      List.filterMap, List.dedup]

/-- C9 amended: for records with non-negative delayed counts bounded by the
flights count, every summary row has delay probability in the unit interval,
zero only with a zero delayed numerator — with no hypothesis on the
cancellation columns; the same bounds hold for the cancel probability only
under the additional hypothesis — not implied by the data-model
preconditions — that each record's cancellation flag is non-negative and at
most its flights count. -/
theorem C9_probability_bounds (sch : Schema) (raw : List RawRecord)
    (hdel0 : ∀ r ∈ raw, 0 ≤ (r.arr_del15).getD 0)
    (hdelle : ∀ r ∈ raw, (r.arr_del15).getD 0 ≤ (r.arr_flights).getD 0) :
    (∀ row ∈ summary sch raw,
        0 ≤ row.delay_probability ∧ row.delay_probability ≤ 1
        ∧ (row.delay_probability = 0 → row.delayed_flights = 0))
    ∧ ((∀ r ∈ raw, 0 ≤ cancelFlag sch r) →
       (∀ r ∈ raw, ((cancelFlag sch r : ℤ) : ℚ) ≤ (r.arr_flights).getD 0) →
       ∀ row ∈ summary sch raw,
        0 ≤ row.cancel_probability ∧ row.cancel_probability ≤ 1
        ∧ (row.cancel_probability = 0 → row.canceled_flights = 0)) := by
  constructor
  · intro row hrow
    have htot := summary_total_pos sch raw row hrow
    obtain ⟨k, hk, rfl⟩ := mem_summary.mp hrow
    rw [makeRow_total] at htot
    have hmemraw : ∀ r ∈ groupOf (filteredRecords raw) k, r ∈ raw := fun r hr =>
      (mem_filteredRecords.mp (mem_groupOf.mp hr).1).1
    have hD0 : 0 ≤ ((groupOf (filteredRecords raw) k).map
        (fun r => (r.arr_del15).getD 0)).sum := by
      apply List.sum_nonneg
      intro x hx
      obtain ⟨r, hr, rfl⟩ := List.mem_map.mp hx
      exact hdel0 r (hmemraw r hr)
    have hDle : ((groupOf (filteredRecords raw) k).map (fun r => (r.arr_del15).getD 0)).sum
        ≤ ((groupOf (filteredRecords raw) k).map (fun r => (r.arr_flights).getD 0)).sum :=
      List.sum_le_sum (fun r hr => hdelle r (hmemraw r hr))
    refine ⟨?_, ?_, ?_⟩
    · rw [makeRow_delay_prob, makeRow_delayed, makeRow_total]
      exact div_nonneg hD0 htot.le
    · rw [makeRow_delay_prob, makeRow_delayed, makeRow_total]
      exact (div_le_one htot).mpr hDle
    · rw [makeRow_delay_prob, makeRow_delayed, makeRow_total]
      intro h0
      rcases div_eq_zero_iff.mp h0 with h | h
      · exact h
      · exact absurd h (ne_of_gt htot)
  · intro hcn0 hcnle row hrow
    have htot := summary_total_pos sch raw row hrow
    obtain ⟨k, hk, rfl⟩ := mem_summary.mp hrow
    rw [makeRow_total] at htot
    have hmemraw : ∀ r ∈ groupOf (filteredRecords raw) k, r ∈ raw := fun r hr =>
      (mem_filteredRecords.mp (mem_groupOf.mp hr).1).1
    have hC0 : (0:ℤ) ≤ ((groupOf (filteredRecords raw) k).map (cancelFlag sch)).sum := by
      apply List.sum_nonneg
      intro x hx
      obtain ⟨r, hr, rfl⟩ := List.mem_map.mp hx
      exact hcn0 r (hmemraw r hr)
    have hCcast : ((((groupOf (filteredRecords raw) k).map (cancelFlag sch)).sum : ℤ) : ℚ)
        = ((groupOf (filteredRecords raw) k).map
            (fun r => ((cancelFlag sch r : ℤ) : ℚ))).sum := by
      rw [Int.cast_list_sum, List.map_map]
      rfl
    have hCle : ((groupOf (filteredRecords raw) k).map
          (fun r => ((cancelFlag sch r : ℤ) : ℚ))).sum
        ≤ ((groupOf (filteredRecords raw) k).map (fun r => (r.arr_flights).getD 0)).sum :=
      List.sum_le_sum (fun r hr => hcnle r (hmemraw r hr))
    refine ⟨?_, ?_, ?_⟩
    · rw [makeRow_cancel_prob, makeRow_canceled, makeRow_total]
      refine div_nonneg ?_ htot.le
      exact_mod_cast hC0
    · rw [makeRow_cancel_prob, makeRow_canceled, makeRow_total]
      refine (div_le_one htot).mpr ?_
      rw [hCcast]
      exact hCle
    · rw [makeRow_cancel_prob, makeRow_canceled, makeRow_total]
      intro h0
      rcases div_eq_zero_iff.mp h0 with h | h
      · exact_mod_cast h
      · exact absurd h (ne_of_gt htot)

/-- Witness for C9 amended at a concrete schema and one-record table,
exercising both the unconditional delay part and the hypothesis-guarded
cancel part. -/
theorem C9_probability_bounds_witness :
    (0 ≤ (makeRow exSchCode [exRecCodeB] (filteredRecords [exRecCodeB])
          ("Delta", "Richmond")).delay_probability
      ∧ (makeRow exSchCode [exRecCodeB] (filteredRecords [exRecCodeB])
          ("Delta", "Richmond")).delay_probability ≤ 1
      ∧ ((makeRow exSchCode [exRecCodeB] (filteredRecords [exRecCodeB])
          ("Delta", "Richmond")).delay_probability = 0 →
         (makeRow exSchCode [exRecCodeB] (filteredRecords [exRecCodeB])
          ("Delta", "Richmond")).delayed_flights = 0))
    ∧ (0 ≤ (makeRow exSchCode [exRecCodeB] (filteredRecords [exRecCodeB])
          ("Delta", "Richmond")).cancel_probability
      ∧ (makeRow exSchCode [exRecCodeB] (filteredRecords [exRecCodeB])
          ("Delta", "Richmond")).cancel_probability ≤ 1
      ∧ ((makeRow exSchCode [exRecCodeB] (filteredRecords [exRecCodeB])
          ("Delta", "Richmond")).cancel_probability = 0 →
         (makeRow exSchCode [exRecCodeB] (filteredRecords [exRecCodeB])
          ("Delta", "Richmond")).canceled_flights = 0)) :=
  ⟨(C9_probability_bounds exSchCode [exRecCodeB]
      (by
        intro r hr
        rcases List.mem_singleton.mp hr with rfl
        norm_num [exRecCodeB])
      (by
        intro r hr
        rcases List.mem_singleton.mp hr with rfl
        norm_num [exRecCodeB])).1 _
    (List.mem_map_of_mem _
      (by decide : ("Delta", "Richmond") ∈ groupKeys (filteredRecords [exRecCodeB]))),
   (C9_probability_bounds exSchCode [exRecCodeB]
      (by
        intro r hr
        rcases List.mem_singleton.mp hr with rfl
        norm_num [exRecCodeB])
      (by
        intro r hr
        rcases List.mem_singleton.mp hr with rfl
        norm_num [exRecCodeB])).2
    (by
      intro r hr
      rcases List.mem_singleton.mp hr with rfl
      decide)
    (by
      intro r hr
      rcases List.mem_singleton.mp hr with rfl
      norm_num [exRecCodeB, cancelFlag, exSchCode])
    _
    (List.mem_map_of_mem _
      (by decide : ("Delta", "Richmond") ∈ groupKeys (filteredRecords [exRecCodeB])))⟩

end AirlineTracker
